import Mathlib

/-!
Verification of the firehose formatter-flags decoder
(`src/chunks/firehose/flags.rs` of macos-UnifiedLogs).

The Rust code is shallowly embedded: the 16-bit flag word is a `Nat`
(the wrapped `u16` value of `FirehoseFlags`), byte buffers are
`List Nat`, and the two nom error shapes the decoder can produce are an
explicit inductive. The nom `complete` number parsers (`le_u16`,
`be_u128`) return `Err(nom::Err::Error(.., ErrorKind::Eof))` when the
input is too short; the decoder's unknown-flags fallthrough returns
`Err(nom::Err::Incomplete(Needed::Unknown))`.
-/

namespace UnifiedLogs

namespace FirehoseFlags

/-- Rust `const ACTIVITY_ID_CURRENT: u16 = 0x1` -/
def ACTIVITY_ID_CURRENT : Nat := 0x1

/-- Rust `const PRIVATE_STRING_RANGE: u16 = 0x100` -/
def PRIVATE_STRING_RANGE : Nat := 0x100

/-- Rust `const MESSAGE_STRINGS_UUID: u16 = 0x2` -/
def MESSAGE_STRINGS_UUID : Nat := 0x2

/-- Rust `const SUBSYSTEM: u16 = 0x200` -/
def SUBSYSTEM : Nat := 0x200

/-- Rust `const HAS_RULES: u16 = 0x400` -/
def HAS_RULES : Nat := 0x400

/-- Rust `const DATA_REF: u16 = 0x800` -/
def DATA_REF : Nat := 0x800

/-- Rust `const HAS_NAME: u16 = 0x8000` -/
def HAS_NAME : Nat := 0x8000

/-- Rust `const FLAGS_CHECK: u16 = 0xe` -/
def FLAGS_CHECK : Nat := 0xe

/-- Rust `const LARGE_SHARED_CACHE: u16 = 0xc` -/
def LARGE_SHARED_CACHE : Nat := 0xc

/-- Rust `const LARGE_OFFSET: u16 = 0x20` -/
def LARGE_OFFSET : Nat := 0x20

/-- Rust `const ABSOLUTE: u16 = 0x8` -/
def ABSOLUTE : Nat := 0x8

/-- Rust `const MAIN_EXE: u16 = 0x2` -/
def MAIN_EXE : Nat := 0x2

/-- Rust `const SHARED_CACHE: u16 = 0x4` -/
def SHARED_CACHE : Nat := 0x4

/-- Rust `const UUID_RELATIVE: u16 = 0xa` -/
def UUID_RELATIVE : Nat := 0xa

/-- Rust `fn has_flag(&self, flag_mask: u16) -> bool`: non-zero AND with the mask. -/
def has_flag (w flag_mask : Nat) : Bool := (w &&& flag_mask) != 0

/-- Rust `fn flags(&self) -> u16`: the word masked with `FLAGS_CHECK`. -/
def flags (w : Nat) : Nat := w &&& FLAGS_CHECK

/-- Rust `fn has_current_aid(&self) -> bool` -/
def has_current_aid (w : Nat) : Bool := has_flag w ACTIVITY_ID_CURRENT

/-- Rust `fn has_private_string(&self) -> bool` -/
def has_private_string (w : Nat) : Bool := has_flag w PRIVATE_STRING_RANGE

/-- Rust `fn has_message_strings_uuid(&self) -> bool` -/
def has_message_strings_uuid (w : Nat) : Bool := has_flag w MESSAGE_STRINGS_UUID

/-- Rust `fn has_subsystem(&self) -> bool` -/
def has_subsystem (w : Nat) : Bool := has_flag w SUBSYSTEM

/-- Rust `fn has_rules(&self) -> bool` -/
def has_rules (w : Nat) : Bool := has_flag w HAS_RULES

/-- Rust `fn has_data_ref(&self) -> bool` -/
def has_data_ref (w : Nat) : Bool := has_flag w DATA_REF

/-- Rust `fn has_name(&self) -> bool` -/
def has_name (w : Nat) : Bool := has_flag w HAS_NAME

/-- Rust `fn is_large_offset(&self) -> bool`: equality of `flags()` with `LARGE_OFFSET`. -/
def is_large_offset (w : Nat) : Bool := flags w == LARGE_OFFSET

/-- Rust `fn has_large_offset(&self) -> bool`: non-zero AND with `LARGE_OFFSET`. -/
def has_large_offset (w : Nat) : Bool := has_flag w LARGE_OFFSET

/-- Rust `fn is_large_shared_cache(&self) -> bool` -/
def is_large_shared_cache (w : Nat) : Bool := flags w == LARGE_SHARED_CACHE

/-- Rust `fn has_large_shared_cache(&self) -> bool` -/
def has_large_shared_cache (w : Nat) : Bool := has_flag w LARGE_SHARED_CACHE

/-- Rust `fn is_absolute(&self) -> bool` -/
def is_absolute (w : Nat) : Bool := flags w == ABSOLUTE

/-- Rust `fn has_absolute(&self) -> bool` -/
def has_absolute (w : Nat) : Bool := has_flag w ABSOLUTE

/-- Rust `fn is_main_exe(&self) -> bool` -/
def is_main_exe (w : Nat) : Bool := flags w == MAIN_EXE

/-- Rust `fn has_main_exe(&self) -> bool` -/
def has_main_exe (w : Nat) : Bool := has_flag w MAIN_EXE

/-- Rust `fn is_shared_cache(&self) -> bool` -/
def is_shared_cache (w : Nat) : Bool := flags w == SHARED_CACHE

/-- Rust `fn has_shared_cache(&self) -> bool` -/
def has_shared_cache (w : Nat) : Bool := has_flag w SHARED_CACHE

/-- Rust `fn is_uuid_relative(&self) -> bool` -/
def is_uuid_relative (w : Nat) : Bool := flags w == UUID_RELATIVE

/-- Rust `fn has_uuid_relative(&self) -> bool` -/
def has_uuid_relative (w : Nat) : Bool := has_flag w UUID_RELATIVE

end FirehoseFlags

/-- The two error shapes `firehose_formatter_flags` can return:
`errorEof` is `nom::Err::Error(Error { code: ErrorKind::Eof, .. })`, the
failure of a nom `complete` number parser on a too-short input;
`incompleteUnknown` is `nom::Err::Incomplete(Needed::Unknown)`, built
explicitly by the unknown-flags fallthrough. -/
inductive NomErr where
  | errorEof
  | incompleteUnknown
deriving DecidableEq, Repr

/-- Predicate picking out the `nom::Err::Incomplete` ("need more bytes")
error shape. -/
def NomErr.isIncomplete : NomErr → Bool
  | .incompleteUnknown => true
  | .errorEof => false

/-- nom's `le_u16` (complete): consume two bytes, little-endian. -/
def le_u16 (input : List Nat) : Except NomErr (List Nat × Nat) :=
  match input with
  | b0 :: b1 :: rest => .ok (rest, b0 + 256 * b1)
  | _ => .error .errorEof

/-- The big-endian value of a byte list (most significant byte first). -/
def beVal (l : List Nat) : Nat := l.foldl (fun acc b => acc * 256 + b) 0

/-- nom's `be_u128` (complete): consume 16 bytes, big-endian. -/
def be_u128 (input : List Nat) : Except NomErr (List Nat × Nat) :=
  if 16 ≤ input.length then .ok (input.drop 16, beVal (input.take 16))
  else .error .errorEof

/-- Hex digit characters as produced by Rust's `{:X}` formatting. -/
def hexDigit (n : Nat) : Char :=
  if n < 10 then Char.ofNat (48 + n) else Char.ofNat (55 + n)

/-- Accumulate the base-16 digits of `n` (most significant first), with
`fuel` bounding the recursion depth; `fuel = n + 1` always suffices. -/
def upperHexCore : Nat → Nat → List Char → List Char
  | 0, _, acc => acc
  | fuel + 1, n, acc =>
    if n < 16 then hexDigit n :: acc
    else upperHexCore fuel (n / 16) (hexDigit (n % 16) :: acc)

/-- Rust's `format!("{:X}", v)`: uppercase hexadecimal, no padding, no
leading zeros (`0` renders as `"0"`). -/
def upperHex (n : Nat) : String := String.mk (upperHexCore (n + 1) n [])

/-- Rust `struct FirehoseFormatters` with its `Default` values. -/
structure FirehoseFormatters where
  main_exe : Bool := false
  shared_cache : Bool := false
  has_large_offset : Nat := 0
  large_shared_cache : Nat := 0
  absolute : Bool := false
  uuid_relative : String := ""
  main_plugin : Bool := false
  pc_style : Bool := false
  main_exe_alt_index : Nat := 0
deriving DecidableEq, Repr

namespace FirehoseFormatters

/-- Embedding of `FirehoseFormatters::firehose_formatter_flags`.
The Rust threads a mutable `input` cursor and ends in a single
`Ok((input, formatter_flags))`; here the cursor is threaded through the
matches on the parser results (the `?` early returns become the
`.error e => .error e` arms) and each branch ends in the `Ok` it
reaches. In the `is_large_shared_cache` branch the Rust does an optional
read followed by an unconditional read; the two arms of the `if` below
are those two paths spelled out. -/
def firehose_formatter_flags (input : List Nat) (flagsWord : Nat) :
    Except NomErr (List Nat × FirehoseFormatters) :=
  let formatter_flags : FirehoseFormatters := {}
  if FirehoseFlags.is_large_offset flagsWord then
    match le_u16 input with
    | .error e => .error e
    | .ok (firehose_input, v) =>
      let formatter_flags := { formatter_flags with has_large_offset := v }
      if FirehoseFlags.has_large_shared_cache flagsWord then
        match le_u16 firehose_input with
        | .error e => .error e
        | .ok (firehose_input2, w) =>
          .ok (firehose_input2, { formatter_flags with large_shared_cache := w })
      else
        .ok (firehose_input, formatter_flags)
  else if FirehoseFlags.is_large_shared_cache flagsWord then
    if FirehoseFlags.has_large_offset flagsWord then
      match le_u16 input with
      | .error e => .error e
      | .ok (firehose_input, v) =>
        match le_u16 firehose_input with
        | .error e => .error e
        | .ok (firehose_input2, w) =>
          .ok (firehose_input2,
            { formatter_flags with has_large_offset := v, large_shared_cache := w })
    else
      match le_u16 input with
      | .error e => .error e
      | .ok (firehose_input, w) =>
        .ok (firehose_input, { formatter_flags with large_shared_cache := w })
  else if FirehoseFlags.is_absolute flagsWord then
    let formatter_flags := { formatter_flags with absolute := true }
    if !FirehoseFlags.has_message_strings_uuid flagsWord then
      match le_u16 input with
      | .error e => .error e
      | .ok (firehose_input, v) =>
        .ok (firehose_input, { formatter_flags with main_exe_alt_index := v })
    else
      .ok (input, formatter_flags)
  else if FirehoseFlags.is_main_exe flagsWord then
    .ok (input, { formatter_flags with main_exe := true })
  else if FirehoseFlags.is_shared_cache flagsWord then
    let formatter_flags := { formatter_flags with shared_cache := true }
    if FirehoseFlags.has_large_offset flagsWord then
      match le_u16 input with
      | .error e => .error e
      | .ok (firehose_input, v) =>
        .ok (firehose_input, { formatter_flags with has_large_offset := v })
    else
      .ok (input, formatter_flags)
  else if FirehoseFlags.is_uuid_relative flagsWord then
    match be_u128 input with
    | .error e => .error e
    | .ok (firehose_input, v) =>
      .ok (firehose_input, { formatter_flags with uuid_relative := upperHex v })
  else
    .error .incompleteUnknown

end FirehoseFormatters

/-- Bytes the selected branch consumes on a fully successful decode,
read off the branch structure of `firehose_formatter_flags`. -/
def bytesNeeded (flagsWord : Nat) : Nat :=
  if FirehoseFlags.is_large_offset flagsWord then
    (if FirehoseFlags.has_large_shared_cache flagsWord then 4 else 2)
  else if FirehoseFlags.is_large_shared_cache flagsWord then
    (if FirehoseFlags.has_large_offset flagsWord then 4 else 2)
  else if FirehoseFlags.is_absolute flagsWord then
    (if FirehoseFlags.has_message_strings_uuid flagsWord then 0 else 2)
  else if FirehoseFlags.is_main_exe flagsWord then 0
  else if FirehoseFlags.is_shared_cache flagsWord then
    (if FirehoseFlags.has_large_offset flagsWord then 2 else 0)
  else if FirehoseFlags.is_uuid_relative flagsWord then 16
  else 0

/-- Whether the masked location sub-code is one of the five variants the
decoder recognizes. -/
def knownLocation (flagsWord : Nat) : Bool :=
  (flagsWord &&& 0xE == 0x2) || (flagsWord &&& 0xE == 0x4) ||
  (flagsWord &&& 0xE == 0x8) || (flagsWord &&& 0xE == 0xA) ||
  (flagsWord &&& 0xE == 0xC)

-- Basic facts

/-- The masked sub-code is at most 14. -/
theorem and14_le (w : Nat) : w &&& 14 ≤ 14 := Nat.and_le_right

/-- Unreachability: `is_large_offset` is identically false: the masked sub-code never
equals `0x20`. -/
theorem is_large_offset_eq_false (w : Nat) :
    FirehoseFlags.is_large_offset w = false := by
  have h := and14_le w
  simp only [FirehoseFlags.is_large_offset, FirehoseFlags.flags,
    FirehoseFlags.FLAGS_CHECK, FirehoseFlags.LARGE_OFFSET]
  simp only [beq_eq_false_iff_ne, ne_eq]
  omega

theorem is_main_exe_eq (w : Nat) :
    FirehoseFlags.is_main_exe w = (w &&& 14 == 2) := rfl

theorem is_shared_cache_eq (w : Nat) :
    FirehoseFlags.is_shared_cache w = (w &&& 14 == 4) := rfl

theorem is_absolute_eq (w : Nat) :
    FirehoseFlags.is_absolute w = (w &&& 14 == 8) := rfl

theorem is_uuid_relative_eq (w : Nat) :
    FirehoseFlags.is_uuid_relative w = (w &&& 14 == 10) := rfl

theorem is_large_shared_cache_eq (w : Nat) :
    FirehoseFlags.is_large_shared_cache w = (w &&& 14 == 12) := rfl

theorem has_large_offset_eq (w : Nat) :
    FirehoseFlags.has_large_offset w = (w &&& 32 != 0) := rfl

theorem has_message_strings_uuid_eq (w : Nat) :
    FirehoseFlags.has_message_strings_uuid w = (w &&& 2 != 0) := rfl

theorem has_large_shared_cache_eq (w : Nat) :
    FirehoseFlags.has_large_shared_cache w = (w &&& 12 != 0) := rfl

/-- A successful `le_u16` means the input started with two bytes that
assemble little-endian into the value, and the rest is returned. -/
theorem le_u16_ok_shape {b r : List Nat} {v : Nat}
    (h : le_u16 b = .ok (r, v)) :
    ∃ b0 b1, b = b0 :: b1 :: r ∧ v = b0 + 256 * b1 := by
  match b with
  | [] => simp [le_u16] at h
  | [x] => simp [le_u16] at h
  | x :: y :: t =>
    simp only [le_u16, Except.ok.injEq, Prod.mk.injEq] at h
    exact ⟨x, y, by rw [h.1], h.2.symm⟩

/-- A successful `be_u128` means the input had at least 16 bytes; the
value is the big-endian assembly of the first 16 and the rest is the
remainder. -/
theorem be_u128_ok_shape {b r : List Nat} {v : Nat}
    (h : be_u128 b = .ok (r, v)) :
    16 ≤ b.length ∧ r = b.drop 16 ∧ v = beVal (b.take 16) := by
  by_cases hl : 16 ≤ b.length
  · simp only [be_u128, if_pos hl, Except.ok.injEq, Prod.mk.injEq] at h
    exact ⟨hl, h.1.symm, h.2.symm⟩
  · simp [be_u128, if_neg hl] at h

/-- Bound: `bytesNeeded` is at most 16 for every flag word. -/
theorem bytesNeeded_le_16 (w : Nat) : bytesNeeded w ≤ 16 := by
  unfold bytesNeeded
  split_ifs <;> omega

/-- The decoder with its first (`is_large_offset`-guarded) branch
removed: the `else`-chain of `firehose_formatter_flags`, kept verbatim.
Used to state that the first branch is dead code. -/
def firehose_formatter_flags_sans_first (input : List Nat) (flagsWord : Nat) :
    Except NomErr (List Nat × FirehoseFormatters) :=
  let formatter_flags : FirehoseFormatters := {}
  if FirehoseFlags.is_large_shared_cache flagsWord then
    if FirehoseFlags.has_large_offset flagsWord then
      match le_u16 input with
      | .error e => .error e
      | .ok (firehose_input, v) =>
        match le_u16 firehose_input with
        | .error e => .error e
        | .ok (firehose_input2, w) =>
          .ok (firehose_input2,
            { formatter_flags with has_large_offset := v, large_shared_cache := w })
    else
      match le_u16 input with
      | .error e => .error e
      | .ok (firehose_input, w) =>
        .ok (firehose_input, { formatter_flags with large_shared_cache := w })
  else if FirehoseFlags.is_absolute flagsWord then
    let formatter_flags := { formatter_flags with absolute := true }
    if !FirehoseFlags.has_message_strings_uuid flagsWord then
      match le_u16 input with
      | .error e => .error e
      | .ok (firehose_input, v) =>
        .ok (firehose_input, { formatter_flags with main_exe_alt_index := v })
    else
      .ok (input, formatter_flags)
  else if FirehoseFlags.is_main_exe flagsWord then
    .ok (input, { formatter_flags with main_exe := true })
  else if FirehoseFlags.is_shared_cache flagsWord then
    let formatter_flags := { formatter_flags with shared_cache := true }
    if FirehoseFlags.has_large_offset flagsWord then
      match le_u16 input with
      | .error e => .error e
      | .ok (firehose_input, v) =>
        .ok (firehose_input, { formatter_flags with has_large_offset := v })
    else
      .ok (input, formatter_flags)
  else if FirehoseFlags.is_uuid_relative flagsWord then
    match be_u128 input with
    | .error e => .error e
    | .ok (firehose_input, v) =>
      .ok (firehose_input, { formatter_flags with uuid_relative := upperHex v })
  else
    .error .incompleteUnknown

/-- C1: for every 16-bit flag word `is_large_offset()` is false (the
masked sub-code `w & 0x000E` is at most 14 and can never equal `0x20`),
so `firehose_formatter_flags` computes exactly what it would compute
with its first, `is_large_offset()`-guarded branch deleted: that branch
is unreachable for every input. -/
theorem large_offset_branch_unreachable (w : Nat) (input : List Nat) :
    FirehoseFlags.is_large_offset w = false ∧
    FirehoseFormatters.firehose_formatter_flags input w =
      firehose_formatter_flags_sans_first input w := by
  refine ⟨is_large_offset_eq_false w, ?_⟩
  unfold FirehoseFormatters.firehose_formatter_flags
    firehose_formatter_flags_sans_first
  rw [is_large_offset_eq_false]
  simp

/-- C8: `flags()` (the location-code accessor) equals `raw & 0x000E`;
each `is_<variant>()` predicate holds exactly when that masked sub-code
equals the variant's constant (0x2 main-executable, 0x4 shared-cache,
0x8 absolute, 0xA uuid-relative, 0xC large-shared-cache); and at most
one of the five predicates holds for any word. -/
theorem location_code_predicates (w : Nat) :
    FirehoseFlags.flags w = w &&& 0xE ∧
    FirehoseFlags.is_main_exe w = (w &&& 0xE == 0x2) ∧
    FirehoseFlags.is_shared_cache w = (w &&& 0xE == 0x4) ∧
    FirehoseFlags.is_absolute w = (w &&& 0xE == 0x8) ∧
    FirehoseFlags.is_uuid_relative w = (w &&& 0xE == 0xA) ∧
    FirehoseFlags.is_large_shared_cache w = (w &&& 0xE == 0xC) ∧
    (if FirehoseFlags.is_main_exe w then 1 else 0) +
      (if FirehoseFlags.is_shared_cache w then 1 else 0) +
      (if FirehoseFlags.is_absolute w then 1 else 0) +
      (if FirehoseFlags.is_uuid_relative w then 1 else 0) +
      (if FirehoseFlags.is_large_shared_cache w then 1 else 0) ≤ 1 := by
  refine ⟨rfl, rfl, rfl, rfl, rfl, rfl, ?_⟩
  simp only [is_main_exe_eq, is_shared_cache_eq, is_absolute_eq,
    is_uuid_relative_eq, is_large_shared_cache_eq]
  by_cases h2 : w &&& 14 = 2 <;> by_cases h4 : w &&& 14 = 4 <;>
    by_cases h8 : w &&& 14 = 8 <;> by_cases h10 : w &&& 14 = 10 <;>
    by_cases h12 : w &&& 14 = 12 <;> simp_all

/-- C9: `has_large_shared_cache()` is the non-zero bitwise AND of the
word with `0xC` (not an equality on the masked sub-code), so it also
holds for every word whose sub-code is 0x4, 0x8 or 0xA, not only for
the true large-shared-cache sub-code 0xC. -/
theorem has_large_shared_cache_overlaps (w : Nat) :
    FirehoseFlags.has_large_shared_cache w = (w &&& 0xC != 0) ∧
    (w &&& 0xE = 0x4 ∨ w &&& 0xE = 0x8 ∨ w &&& 0xE = 0xA ∨ w &&& 0xE = 0xC →
      FirehoseFlags.has_large_shared_cache w = true) := by
  refine ⟨rfl, fun h => ?_⟩
  have h12 : w &&& 12 = (w &&& 14) &&& 12 := by
    rw [Nat.land_assoc]
    rfl
  rw [has_large_shared_cache_eq]
  simp only [bne_iff_ne, ne_eq, decide_eq_true_eq]
  rcases h with h | h | h | h <;> rw [h12, h] <;> decide

/-- Witness for C9 at the shared-cache sub-code 0x4: the word 4 has
sub-code 0x4 and `has_large_shared_cache` is nevertheless true. -/
theorem has_large_shared_cache_overlaps_witness :
    (4 : Nat) &&& 0xE = 0x4 ∧ FirehoseFlags.has_large_shared_cache 4 = true :=
  ⟨by decide, (has_large_shared_cache_overlaps 4).2 (Or.inl (by decide))⟩

/-- C2 counterexample: the claim asserts a 32-character fixed-width
rendering for every 128-bit value, including those with leading zero
nibbles. Decoding flag word 0xA against the 16-byte value
`00…0001` (plus two trailing bytes) produces `uuid_relative = "1"` — a
1-character string, not 32 — because Rust's `{:X}` does not pad. -/
theorem uuid_relative_not_fixed_width :
    FirehoseFormatters.firehose_formatter_flags
      [0, 0, 0, 0, 0, 0, 0, 0, 0, 0, 0, 0, 0, 0, 0, 1, 0, 0] 0xA =
      .ok ([0, 0], { uuid_relative := "1" }) ∧
    ("1" : String).length = 1 := by
  exact ⟨rfl, rfl⟩

/-- C2 (amended): for every flag word whose masked sub-code is 0xA and
every buffer with at least 16 bytes, decode consumes exactly 16 bytes,
interpreted big-endian, and sets `uuid_relative` to the uppercase
hexadecimal rendering of that value written without leading zeros
(Rust `{:X}`: 32 characters only when the top nibble is non-zero). -/
theorem uuid_relative_decode (w : Nat) (b : List Nat)
    (h : w &&& 0xE = 0xA) (hlen : 16 ≤ b.length) :
    FirehoseFormatters.firehose_formatter_flags b w =
      .ok (b.drop 16, { uuid_relative := upperHex (beVal (b.take 16)) }) ∧
    b.length - (b.drop 16).length = 16 := by
  constructor
  · unfold FirehoseFormatters.firehose_formatter_flags
    rw [is_large_offset_eq_false]
    simp [is_large_shared_cache_eq, is_absolute_eq, is_main_exe_eq,
      is_shared_cache_eq, is_uuid_relative_eq, h, be_u128, if_pos hlen]
  · simp only [List.length_drop]
    omega

/-- Witness for C2's amended theorem at the repository's own test
vector: flag word 0xA against the 18-byte test buffer yields the
32-character string `7B0D3775F1903E21BA130447C41B8743` and leaves the
2-byte suffix untouched. -/
theorem uuid_relative_decode_witness :
    FirehoseFormatters.firehose_formatter_flags
      [123, 13, 55, 117, 241, 144, 62, 33, 186, 19, 4, 71, 196, 27, 135, 67, 0, 0]
      0xA =
      .ok ([0, 0], { uuid_relative := "7B0D3775F1903E21BA130447C41B8743" }) := by
  have h := (uuid_relative_decode 0xA
    [123, 13, 55, 117, 241, 144, 62, 33, 186, 19, 4, 71, 196, 27, 135, 67, 0, 0]
    (by decide) (by decide)).1
  rw [h]
  rfl

/-- C3 counterexample: on the unknown sub-code 0x0 (flag word 0, empty
buffer) the decoder does fail, but with `nom::Err::Incomplete
(Needed::Unknown)` — precisely the "need more bytes" error shape, with
no flag word attached — not with a distinct malformed-input error kind
as the claim states. -/
theorem unknown_flags_error_is_incomplete :
    FirehoseFormatters.firehose_formatter_flags [] 0 =
      .error .incompleteUnknown ∧
    NomErr.isIncomplete .incompleteUnknown = true := by
  exact ⟨rfl, rfl⟩

/-- C3 (amended): for every flag word whose masked sub-code matches none
of the five known variants and every buffer, decode fails — but the
error it returns is `nom::Err::Incomplete(Needed::Unknown)`, the
need-more-bytes shape, carrying no flag word (the offending flags are
only logged). -/
theorem unknown_flags_decode_fails (w : Nat) (b : List Nat)
    (h : knownLocation w = false) :
    FirehoseFormatters.firehose_formatter_flags b w =
      .error .incompleteUnknown := by
  simp only [knownLocation, Bool.or_eq_false_iff, beq_eq_false_iff_ne, ne_eq] at h
  obtain ⟨⟨⟨⟨h2, h4⟩, h8⟩, h10⟩, h12⟩ := h
  unfold FirehoseFormatters.firehose_formatter_flags
  rw [is_large_offset_eq_false]
  simp [is_large_shared_cache_eq, is_absolute_eq, is_main_exe_eq,
    is_shared_cache_eq, is_uuid_relative_eq, h2, h4, h8, h10, h12]

/-- Witness for C3's amended theorem at flag word 0 (sub-code 0x0) and a
non-empty buffer. -/
theorem unknown_flags_decode_fails_witness :
    knownLocation 0 = false ∧
    FirehoseFormatters.firehose_formatter_flags [1, 2, 3] 0 =
      .error .incompleteUnknown :=
  ⟨by decide, unknown_flags_decode_fails 0 [1, 2, 3] (by decide)⟩

/-- C6: for every flag word with masked sub-code 0xC and a buffer of at
least four bytes, decode reads a little-endian u16 into
`has_large_offset` first exactly when bit 0x20 is set, then reads a
little-endian u16 into `large_shared_cache`; with bit 0x20 clear only
the `large_shared_cache` u16 is read. -/
theorem large_shared_cache_branch_decode (w b0 b1 b2 b3 : Nat)
    (r : List Nat) (h : w &&& 0xE = 0xC) :
    (FirehoseFlags.has_large_offset w = true →
      FirehoseFormatters.firehose_formatter_flags (b0 :: b1 :: b2 :: b3 :: r) w =
        .ok (r, { has_large_offset := b0 + 256 * b1,
                  large_shared_cache := b2 + 256 * b3 })) ∧
    (FirehoseFlags.has_large_offset w = false →
      FirehoseFormatters.firehose_formatter_flags (b0 :: b1 :: b2 :: b3 :: r) w =
        .ok (b2 :: b3 :: r, { large_shared_cache := b0 + 256 * b1 })) := by
  constructor <;> intro hb <;>
    unfold FirehoseFormatters.firehose_formatter_flags <;>
    rw [is_large_offset_eq_false] <;>
    simp [is_large_shared_cache_eq, h, hb, le_u16]

/-- Witness for C6 at the repository's own test vector: flag word 557
(0x22D: sub-code 0xC, bit 0x20 set) against bytes starting
`[1, 0, 2, 0]` yields `has_large_offset = 1` and
`large_shared_cache = 2`. -/
theorem large_shared_cache_branch_decode_witness :
    (557 : Nat) &&& 0xE = 0xC ∧
    FirehoseFormatters.firehose_formatter_flags [1, 0, 2, 0, 14, 0] 557 =
      .ok ([14, 0], { has_large_offset := 1, large_shared_cache := 2 }) := by
  refine ⟨by decide, ?_⟩
  have h := (large_shared_cache_branch_decode 557 1 0 2 0 [14, 0]
    (by decide)).1 (by decide)
  rw [h]

/-- C7: for every flag word with masked sub-code 0x8, decode sets
`absolute` to true; it additionally reads a little-endian u16 into
`main_exe_alt_index` exactly when the independent message-strings-uuid
bit 0x2 is clear, and reads nothing when that bit is set. -/
theorem absolute_branch_decode (w b0 b1 : Nat) (r : List Nat)
    (h : w &&& 0xE = 0x8) :
    (FirehoseFlags.has_message_strings_uuid w = false →
      FirehoseFormatters.firehose_formatter_flags (b0 :: b1 :: r) w =
        .ok (r, { absolute := true, main_exe_alt_index := b0 + 256 * b1 })) ∧
    (FirehoseFlags.has_message_strings_uuid w = true →
      ∀ b : List Nat, FirehoseFormatters.firehose_formatter_flags b w =
        .ok (b, { absolute := true })) := by
  constructor
  · intro hm
    unfold FirehoseFormatters.firehose_formatter_flags
    rw [is_large_offset_eq_false]
    simp [is_large_shared_cache_eq, is_absolute_eq, h, hm, le_u16]
  · intro hm b
    unfold FirehoseFormatters.firehose_formatter_flags
    rw [is_large_offset_eq_false]
    simp [is_large_shared_cache_eq, is_absolute_eq, h, hm, le_u16]

/-- Any successful decode returns exactly the input with the selected
branch's byte count dropped from the front. -/
theorem decode_ok_drop (w : Nat) (b rest : List Nat)
    (out : FirehoseFormatters)
    (h : FirehoseFormatters.firehose_formatter_flags b w = .ok (rest, out)) :
    rest = b.drop (bytesNeeded w) := by
  have hlo := is_large_offset_eq_false w
  unfold FirehoseFormatters.firehose_formatter_flags at h
  unfold bytesNeeded
  rw [hlo] at h
  simp only [Bool.false_eq_true, if_false] at h
  rw [hlo]
  simp only [Bool.false_eq_true, if_false]
  cases hc12 : FirehoseFlags.is_large_shared_cache w with
  | true =>
    rw [hc12] at h
    simp only [if_true] at h ⊢
    cases hb : FirehoseFlags.has_large_offset w with
    | true =>
      rw [hb] at h
      simp only [if_true] at h ⊢
      cases hle : le_u16 b with
      | error e => rw [hle] at h; simp at h
      | ok p =>
        obtain ⟨i1, v1⟩ := p
        rw [hle] at h
        dsimp only at h
        cases hle2 : le_u16 i1 with
        | error e => rw [hle2] at h; simp at h
        | ok p2 =>
          obtain ⟨i2, v2⟩ := p2
          rw [hle2] at h
          dsimp only at h
          simp only [Except.ok.injEq, Prod.mk.injEq] at h
          obtain ⟨b0, b1, hb1, -⟩ := le_u16_ok_shape hle
          obtain ⟨c0, c1, hc1, -⟩ := le_u16_ok_shape hle2
          subst hb1; subst hc1
          rw [← h.1]
          rfl
    | false =>
      rw [hb] at h
      simp only [Bool.false_eq_true, if_false] at h ⊢
      cases hle : le_u16 b with
      | error e => rw [hle] at h; simp at h
      | ok p =>
        obtain ⟨i1, v1⟩ := p
        rw [hle] at h
        dsimp only at h
        simp only [Except.ok.injEq, Prod.mk.injEq] at h
        obtain ⟨b0, b1, hb1, -⟩ := le_u16_ok_shape hle
        subst hb1
        rw [← h.1]
        rfl
  | false =>
    rw [hc12] at h
    simp only [Bool.false_eq_true, if_false] at h ⊢
    cases hc8 : FirehoseFlags.is_absolute w with
    | true =>
      rw [hc8] at h
      simp only [if_true] at h ⊢
      cases hm : FirehoseFlags.has_message_strings_uuid w with
      | true =>
        rw [hm] at h
        simp only [Bool.not_true, Bool.false_eq_true, if_false, if_true,
          Except.ok.injEq, Prod.mk.injEq] at h ⊢
        rw [← h.1]
        rfl
      | false =>
        rw [hm] at h
        simp only [Bool.not_false, if_true, Bool.false_eq_true, if_false] at h ⊢
        cases hle : le_u16 b with
        | error e => rw [hle] at h; simp at h
        | ok p =>
          obtain ⟨i1, v1⟩ := p
          rw [hle] at h
          dsimp only at h
          simp only [Except.ok.injEq, Prod.mk.injEq] at h
          obtain ⟨b0, b1, hb1, -⟩ := le_u16_ok_shape hle
          subst hb1
          rw [← h.1]
          rfl
    | false =>
      rw [hc8] at h
      simp only [Bool.false_eq_true, if_false] at h ⊢
      cases hc2 : FirehoseFlags.is_main_exe w with
      | true =>
        rw [hc2] at h
        simp only [if_true, Except.ok.injEq, Prod.mk.injEq] at h ⊢
        rw [← h.1]
        rfl
      | false =>
        rw [hc2] at h
        simp only [Bool.false_eq_true, if_false] at h ⊢
        cases hc4 : FirehoseFlags.is_shared_cache w with
        | true =>
          rw [hc4] at h
          simp only [if_true] at h ⊢
          cases hb : FirehoseFlags.has_large_offset w with
          | true =>
            rw [hb] at h
            simp only [if_true] at h ⊢
            cases hle : le_u16 b with
            | error e => rw [hle] at h; simp at h
            | ok p =>
              obtain ⟨i1, v1⟩ := p
              rw [hle] at h
              dsimp only at h
              simp only [Except.ok.injEq, Prod.mk.injEq] at h
              obtain ⟨b0, b1, hb1, -⟩ := le_u16_ok_shape hle
              subst hb1
              rw [← h.1]
              rfl
          | false =>
            rw [hb] at h
            simp only [Bool.false_eq_true, if_false,
              Except.ok.injEq, Prod.mk.injEq] at h ⊢
            rw [← h.1]
            rfl
        | false =>
          rw [hc4] at h
          simp only [Bool.false_eq_true, if_false] at h ⊢
          cases hc10 : FirehoseFlags.is_uuid_relative w with
          | true =>
            rw [hc10] at h
            simp only [if_true] at h ⊢
            cases hbe : be_u128 b with
            | error e => rw [hbe] at h; simp at h
            | ok p =>
              obtain ⟨i1, v1⟩ := p
              rw [hbe] at h
              dsimp only at h
              simp only [Except.ok.injEq, Prod.mk.injEq] at h
              obtain ⟨-, hdrop, -⟩ := be_u128_ok_shape hbe
              rw [← h.1, hdrop]
          | false =>
            rw [hc10] at h
            simp only [Bool.false_eq_true, if_false] at h
            simp at h

/-- A successful `le_u16` is unaffected by appending bytes: the value
is unchanged and the suffix passes through to the remainder. -/
theorem le_u16_append {b r : List Nat} {v : Nat} (s : List Nat)
    (h : le_u16 b = .ok (r, v)) : le_u16 (b ++ s) = .ok (r ++ s, v) := by
  obtain ⟨b0, b1, hb1, hv⟩ := le_u16_ok_shape h
  subst hb1; subst hv; rfl

/-- A successful `be_u128` is unaffected by appending bytes. -/
theorem be_u128_append {b r : List Nat} {v : Nat} (s : List Nat)
    (h : be_u128 b = .ok (r, v)) : be_u128 (b ++ s) = .ok (r ++ s, v) := by
  obtain ⟨hl, hr, hv⟩ := be_u128_ok_shape h
  have hl2 : 16 ≤ (b ++ s).length := by
    rw [List.length_append]; omega
  unfold be_u128
  rw [if_pos hl2, List.take_append_of_le_length hl,
    List.drop_append_of_le_length hl, hr, hv]

/-- C5: whenever decode succeeds, the bytes consumed are exactly the
selected branch's fixed size (never more than 18), the remaining buffer
is the unconsumed suffix of the input with the matching length, and the
main-executable branch consumes zero bytes. -/
theorem decode_consumption_bound (w : Nat) (b rest : List Nat)
    (out : FirehoseFormatters)
    (h : FirehoseFormatters.firehose_formatter_flags b w = .ok (rest, out)) :
    rest = b.drop (bytesNeeded w) ∧ bytesNeeded w ≤ 18 ∧
    rest.length = b.length - bytesNeeded w ∧
    (FirehoseFlags.is_main_exe w = true → rest = b) := by
  have hd := decode_ok_drop w b rest out h
  refine ⟨hd, le_trans (bytesNeeded_le_16 w) (by omega), ?_, ?_⟩
  · rw [hd, List.length_drop]
  · intro hme
    rw [is_main_exe_eq, beq_iff_eq] at hme
    have h0 : bytesNeeded w = 0 := by
      simp [bytesNeeded, is_large_offset_eq_false, is_large_shared_cache_eq,
        is_absolute_eq, is_main_exe_eq, hme]
    rw [hd, h0, List.drop_zero]

/-- Witness for C5 at the repository's main-executable test: flag word
514 consumes zero bytes and returns the buffer untouched. -/
theorem decode_consumption_bound_witness :
    ([186, 0, 0, 0] : List Nat) = List.drop (bytesNeeded 514) [186, 0, 0, 0] ∧
    bytesNeeded 514 ≤ 18 ∧
    ([186, 0, 0, 0] : List Nat).length =
      ([186, 0, 0, 0] : List Nat).length - bytesNeeded 514 ∧
    (FirehoseFlags.is_main_exe 514 = true →
      ([186, 0, 0, 0] : List Nat) = [186, 0, 0, 0]) :=
  decode_consumption_bound 514 [186, 0, 0, 0] [186, 0, 0, 0]
    { main_exe := true } rfl

/-- C4: for every flag word that selects one of the five known branches
and every buffer shorter than what that branch consumes, decode fails
with the nom `Error(Eof)` result of the failing number parser — the
embedding is a total function returning `Except`, so no out-of-bounds
read happens and no `FirehoseFormatters` value escapes on the error
path. -/
theorem truncated_input_eof (w : Nat) (b : List Nat)
    (hk : knownLocation w = true) (hs : b.length < bytesNeeded w) :
    FirehoseFormatters.firehose_formatter_flags b w = .error .errorEof := by
  have hlo := is_large_offset_eq_false w
  simp only [knownLocation, Bool.or_eq_true, beq_iff_eq] at hk
  unfold FirehoseFormatters.firehose_formatter_flags
  unfold bytesNeeded at hs
  rw [hlo] at hs ⊢
  simp only [Bool.false_eq_true, if_false] at hs ⊢
  rcases hk with ((((h | h) | h) | h) | h)
  · -- sub-code 0x2: nothing is consumed, so the hypothesis is absurd
    simp [is_large_shared_cache_eq, is_absolute_eq, is_main_exe_eq, h] at hs
  · -- sub-code 0x4: a u16 is read only when bit 0x20 is set
    cases hb : FirehoseFlags.has_large_offset w with
    | false =>
      simp [is_large_shared_cache_eq, is_absolute_eq, is_main_exe_eq,
        is_shared_cache_eq, h, hb] at hs
    | true =>
      simp [is_large_shared_cache_eq, is_absolute_eq, is_main_exe_eq,
        is_shared_cache_eq, h, hb] at hs
      rcases b with _ | ⟨x, _ | ⟨y, t⟩⟩
      · simp [is_large_shared_cache_eq, is_absolute_eq, is_main_exe_eq,
          is_shared_cache_eq, h, hb, le_u16]
      · simp [is_large_shared_cache_eq, is_absolute_eq, is_main_exe_eq,
          is_shared_cache_eq, h, hb, le_u16]
      · exfalso; simp at hs; omega
  · -- sub-code 0x8: a u16 is read only when bit 0x2 is clear
    cases hm : FirehoseFlags.has_message_strings_uuid w with
    | true =>
      simp [is_large_shared_cache_eq, is_absolute_eq, h, hm] at hs
    | false =>
      simp [is_large_shared_cache_eq, is_absolute_eq, h, hm] at hs
      rcases b with _ | ⟨x, _ | ⟨y, t⟩⟩
      · simp [is_large_shared_cache_eq, is_absolute_eq, h, hm, le_u16]
      · simp [is_large_shared_cache_eq, is_absolute_eq, h, hm, le_u16]
      · exfalso; simp at hs; omega
  · -- sub-code 0xA: sixteen bytes are required
    simp [is_large_shared_cache_eq, is_absolute_eq, is_main_exe_eq,
      is_shared_cache_eq, is_uuid_relative_eq, h] at hs
    have hn : ¬ (16 ≤ b.length) := by omega
    simp [is_large_shared_cache_eq, is_absolute_eq, is_main_exe_eq,
      is_shared_cache_eq, is_uuid_relative_eq, h, be_u128, hn]
  · -- sub-code 0xC: one or two u16 reads depending on bit 0x20
    cases hb : FirehoseFlags.has_large_offset w with
    | false =>
      simp [is_large_shared_cache_eq, h, hb] at hs
      rcases b with _ | ⟨x, _ | ⟨y, t⟩⟩
      · simp [is_large_shared_cache_eq, h, hb, le_u16]
      · simp [is_large_shared_cache_eq, h, hb, le_u16]
      · exfalso; simp at hs; omega
    | true =>
      simp [is_large_shared_cache_eq, h, hb] at hs
      rcases b with _ | ⟨x, _ | ⟨y, t⟩⟩
      · simp [is_large_shared_cache_eq, h, hb, le_u16]
      · simp [is_large_shared_cache_eq, h, hb, le_u16]
      · rcases t with _ | ⟨z, _ | ⟨u, t3⟩⟩
        · simp [is_large_shared_cache_eq, h, hb, le_u16]
        · simp [is_large_shared_cache_eq, h, hb, le_u16]
        · exfalso; simp at hs; omega

/-- Witness for C4: flag word 0xA (uuid-relative, needs 16 bytes)
against the empty buffer yields the `Error(Eof)` truncation result. -/
theorem truncated_input_eof_witness :
    knownLocation 10 = true ∧ ([] : List Nat).length < bytesNeeded 10 ∧
    FirehoseFormatters.firehose_formatter_flags [] 10 = .error .errorEof :=
  ⟨by decide, by decide, truncated_input_eof 10 [] (by decide) (by decide)⟩

/-- C10: a successful decode depends only on the consumed prefix:
appending any byte sequence to the buffer leaves every decoded field
unchanged and merely lengthens the returned remainder by the same
suffix. -/
theorem decode_append_invariance (w : Nat) (b s rest : List Nat)
    (out : FirehoseFormatters)
    (h : FirehoseFormatters.firehose_formatter_flags b w = .ok (rest, out)) :
    FirehoseFormatters.firehose_formatter_flags (b ++ s) w =
      .ok (rest ++ s, out) := by
  have hlo := is_large_offset_eq_false w
  unfold FirehoseFormatters.firehose_formatter_flags at h ⊢
  rw [hlo] at h ⊢
  simp only [Bool.false_eq_true, if_false] at h ⊢
  cases hc12 : FirehoseFlags.is_large_shared_cache w with
  | true =>
    rw [hc12] at h
    simp only [if_true] at h ⊢
    cases hb : FirehoseFlags.has_large_offset w with
    | true =>
      rw [hb] at h
      simp only [if_true] at h ⊢
      cases hle : le_u16 b with
      | error e => rw [hle] at h; simp at h
      | ok p =>
        obtain ⟨i1, v1⟩ := p
        rw [hle] at h
        dsimp only at h
        rw [le_u16_append s hle]
        dsimp only
        cases hle2 : le_u16 i1 with
        | error e => rw [hle2] at h; simp at h
        | ok p2 =>
          obtain ⟨i2, v2⟩ := p2
          rw [hle2] at h
          dsimp only at h
          rw [le_u16_append s hle2]
          dsimp only
          simp only [Except.ok.injEq, Prod.mk.injEq] at h
          rw [h.1, h.2]
    | false =>
      rw [hb] at h
      simp only [Bool.false_eq_true, if_false] at h ⊢
      cases hle : le_u16 b with
      | error e => rw [hle] at h; simp at h
      | ok p =>
        obtain ⟨i1, v1⟩ := p
        rw [hle] at h
        dsimp only at h
        rw [le_u16_append s hle]
        dsimp only
        simp only [Except.ok.injEq, Prod.mk.injEq] at h
        rw [h.1, h.2]
  | false =>
    rw [hc12] at h
    simp only [Bool.false_eq_true, if_false] at h ⊢
    cases hc8 : FirehoseFlags.is_absolute w with
    | true =>
      rw [hc8] at h
      simp only [if_true] at h ⊢
      cases hm : FirehoseFlags.has_message_strings_uuid w with
      | true =>
        rw [hm] at h
        simp only [Bool.not_true, Bool.false_eq_true, if_false,
          Except.ok.injEq, Prod.mk.injEq] at h ⊢
        rw [h.1, h.2]
        exact ⟨rfl, rfl⟩
      | false =>
        rw [hm] at h
        simp only [Bool.not_false, if_true] at h ⊢
        cases hle : le_u16 b with
        | error e => rw [hle] at h; simp at h
        | ok p =>
          obtain ⟨i1, v1⟩ := p
          rw [hle] at h
          dsimp only at h
          rw [le_u16_append s hle]
          dsimp only
          simp only [Except.ok.injEq, Prod.mk.injEq] at h
          rw [h.1, h.2]
    | false =>
      rw [hc8] at h
      simp only [Bool.false_eq_true, if_false] at h ⊢
      cases hc2 : FirehoseFlags.is_main_exe w with
      | true =>
        rw [hc2] at h
        simp only [if_true, Except.ok.injEq, Prod.mk.injEq] at h ⊢
        rw [h.1, h.2]
        exact ⟨rfl, rfl⟩
      | false =>
        rw [hc2] at h
        simp only [Bool.false_eq_true, if_false] at h ⊢
        cases hc4 : FirehoseFlags.is_shared_cache w with
        | true =>
          rw [hc4] at h
          simp only [if_true] at h ⊢
          cases hb : FirehoseFlags.has_large_offset w with
          | true =>
            rw [hb] at h
            simp only [if_true] at h ⊢
            cases hle : le_u16 b with
            | error e => rw [hle] at h; simp at h
            | ok p =>
              obtain ⟨i1, v1⟩ := p
              rw [hle] at h
              dsimp only at h
              rw [le_u16_append s hle]
              dsimp only
              simp only [Except.ok.injEq, Prod.mk.injEq] at h
              rw [h.1, h.2]
          | false =>
            rw [hb] at h
            simp only [Bool.false_eq_true, if_false,
              Except.ok.injEq, Prod.mk.injEq] at h ⊢
            rw [h.1, h.2]
            exact ⟨rfl, rfl⟩
        | false =>
          rw [hc4] at h
          simp only [Bool.false_eq_true, if_false] at h ⊢
          cases hc10 : FirehoseFlags.is_uuid_relative w with
          | true =>
            rw [hc10] at h
            simp only [if_true] at h ⊢
            cases hbe : be_u128 b with
            | error e => rw [hbe] at h; simp at h
            | ok p =>
              obtain ⟨i1, v1⟩ := p
              rw [hbe] at h
              dsimp only at h
              rw [be_u128_append s hbe]
              dsimp only
              simp only [Except.ok.injEq, Prod.mk.injEq] at h
              rw [h.1, h.2]
          | false =>
            rw [hc10] at h
            simp only [Bool.false_eq_true, if_false] at h
            simp at h

/-- Witness for C10: the main-executable decode of the test buffer is
unchanged by appending a byte, which passes through to the remainder. -/
theorem decode_append_invariance_witness :
    FirehoseFormatters.firehose_formatter_flags
      (([186, 0, 0, 0] : List Nat) ++ [7]) 514 =
      .ok (([186, 0, 0, 0] : List Nat) ++ [7], { main_exe := true }) :=
  decode_append_invariance 514 [186, 0, 0, 0] [7] [186, 0, 0, 0]
    { main_exe := true } rfl

/-- Witness for C7 at the repository's own test vector: flag word 8
(sub-code 0x8, bit 0x2 clear) against bytes starting `[8, 0]` yields
`main_exe_alt_index = 8` and `absolute = true`. -/
theorem absolute_branch_decode_witness :
    (8 : Nat) &&& 0xE = 0x8 ∧
    FirehoseFormatters.firehose_formatter_flags [8, 0, 17, 166] 8 =
      .ok ([17, 166], { absolute := true, main_exe_alt_index := 8 }) := by
  refine ⟨by decide, ?_⟩
  have h := (absolute_branch_decode 8 8 0 [17, 166] (by decide)).1 (by decide)
  rw [h]

end UnifiedLogs
